import Mathlib

/-!
Shallow embedding of the query/aggregation core of the file
spacex-dash-app.py: the dataset loader with its file-not-found fallback,
the pie-chart success-distribution aggregation (function get_pie_chart),
and the scatter-chart payload/site filtering (function get_scatter_chart).
Records are rows of the dataframe; payload mass is modelled as a rational
number, the class column as a natural number (the file stores 0/1).
-/

/-- One row of the spacex_df dataframe: columns Launch Site,
Payload Mass (kg), class, Booster Version Category. -/
structure LaunchRecord where
  launchSite : String
  payloadMassKg : ℚ
  cls : ℕ
  boosterVersionCategory : String
  deriving DecidableEq, Repr

/-- The dummy dataframe built in the except-FileNotFoundError branch
(lines 16-21 of the source). -/
def fallbackDataset : List LaunchRecord :=
  [ ⟨"CCAFS LC-40", 500, 0, "v1.0"⟩,
    ⟨"VAFB SLC-4E", 600, 1, "v1.1"⟩,
    ⟨"KSC LC-39A", 700, 1, "FT"⟩,
    ⟨"CCAFS SLC-40", 800, 0, "v1.0"⟩ ]

/-- Outcome of attempting pd.read_csv on spacex_launch_dash.csv:
either the parsed rows, or a FileNotFoundError (the file is missing),
or some other exception such as a ParserError from a malformed file. -/
inductive ReadResult where
  | ok (rows : List LaunchRecord)
  | fileNotFoundError
  | otherError (msg : String)
  deriving DecidableEq, Repr

/-- The try/except-FileNotFoundError block at lines 11-21: a missing
file is caught and replaced by fallbackDataset; any other exception is
not caught and propagates (modelled as Except.error). -/
def loadDataset : ReadResult → Except String (List LaunchRecord)
  | .ok rows => .ok rows
  | .fileNotFoundError => .ok fallbackDataset
  | .otherError msg => .error msg

/-- Whether the module-level load completes (no uncaught exception). -/
def loadSucceeds (r : ReadResult) : Bool :=
  match loadDataset r with
  | .ok _ => true
  | .error _ => false

/-- The ALL branch of get_pie_chart (lines 89-92): keep the rows with
class equal to 1, group by Launch Site, and record the size of each
group. -/
def successDistributionAll (df : List LaunchRecord) : List (String × ℕ) :=
  let successful := df.filter (fun r => r.cls == 1)
  let sites := successful.map (fun r => r.launchSite)
  sites.dedup.map (fun s => (s, sites.count s))

/-- The mapping from 1 to Success and 0 to Failure applied to the class
column at line 101; any other value has no image (pandas produces NaN). -/
def outcomeLabel : ℕ → Option String
  | 1 => some "Success"
  | 0 => some "Failure"
  | _ => none

/-- The specific-site branch of get_pie_chart (lines 96-101): keep the
rows of the entered site, take value_counts of the class column, and
label each class value through outcomeLabel. -/
def successDistributionSite (df : List LaunchRecord) (enteredSite : String) :
    List (Option String × ℕ) :=
  let filtered := df.filter (fun r => r.launchSite == enteredSite)
  let cs := filtered.map (fun r => r.cls)
  cs.dedup.map (fun c => (outcomeLabel c, cs.count c))

/-- The data underlying the pie figure: get_pie_chart returns a per-site
success count when entered_site is ALL and a per-outcome count
otherwise. -/
inductive PieResult where
  | bySite (counts : List (String × ℕ))
  | byOutcome (counts : List (Option String × ℕ))
  deriving DecidableEq, Repr

/-- The branch structure of get_pie_chart (lines 77-107). -/
def computeSuccessDistribution (df : List LaunchRecord) (enteredSite : String) :
    PieResult :=
  if enteredSite == "ALL" then .bySite (successDistributionAll df)
  else .byOutcome (successDistributionSite df enteredSite)

/-- The list of counts appearing in a PieResult, whichever branch. -/
def PieResult.countValues : PieResult → List ℕ
  | .bySite m => m.map (fun p => p.2)
  | .byOutcome m => m.map (fun p => p.2)

/-- The payload-range mask of lines 117-119. -/
def inPayloadRange (low high : ℚ) (r : LaunchRecord) : Bool :=
  decide (low ≤ r.payloadMassKg) && decide (r.payloadMassKg ≤ high)

/-- The data underlying the scatter figure in get_scatter_chart
(lines 115-139): the payload-range mask is applied first, then, unless
entered_site is ALL, the site filter of line 132. -/
def computeFilteredRecords (df : List LaunchRecord) (enteredSite : String)
    (low high : ℚ) : List LaunchRecord :=
  let filtered := df.filter (inPayloadRange low high)
  if enteredSite == "ALL" then filtered
  else filtered.filter (fun r => r.launchSite == enteredSite)

/-- Count associated to a key in an association-list mapping, an absent
key counting as zero. -/
def lookupCount {α : Type} [BEq α] (m : List (α × ℕ)) (k : α) : ℕ :=
  (m.lookup k).getD 0

/-- The four-record dataset of the scenario in section 8 of the spec. -/
def scenarioDataset : List LaunchRecord :=
  [ ⟨"CCAFS", 500, 1, "v1.0"⟩,
    ⟨"VAFB", 600, 0, "v1.1"⟩,
    ⟨"KSC", 700, 1, "FT"⟩,
    ⟨"CCAFS", 800, 0, "v1.0"⟩ ]

/-- C1: on the four-record scenario dataset, the ALL success
distribution is the mapping CCAFS to 1 and KSC to 1; the CCAFS
distribution is Success to 1 and Failure to 1; the filtered records for
ALL and range 0 to 600 are the first two records in order; and the
filtered records for CCAFS and range 0 to 10000 are records 1 and 4. -/
theorem scenario_query_results :
    (successDistributionAll scenarioDataset).Perm [("CCAFS", 1), ("KSC", 1)] ∧
    (successDistributionSite scenarioDataset "CCAFS").Perm
      [(some "Success", 1), (some "Failure", 1)] ∧
    computeFilteredRecords scenarioDataset "ALL" 0 600 =
      scenarioDataset.take 2 ∧
    computeFilteredRecords scenarioDataset "CCAFS" 0 10000 =
      [⟨"CCAFS", 500, 1, "v1.0"⟩, ⟨"CCAFS", 800, 0, "v1.0"⟩] := by
  decide

/-- C2 counterexample: a read failure that is not a FileNotFoundError
(for example a ParserError from a malformed file) is not caught by the
loader, so the load does not complete with a Dataset. -/
theorem load_malformed_file_propagates :
    loadSucceeds (ReadResult.otherError "ParserError") = false := rfl

/-- C2 amended: only a missing file (FileNotFoundError) is caught and
replaced by the built-in fallback Dataset; any other read failure, such
as a malformed file, propagates to the caller. -/
theorem load_only_missing_file_recovered :
    loadDataset ReadResult.fileNotFoundError = Except.ok fallbackDataset ∧
    loadDataset (ReadResult.otherError "ParserError") =
      Except.error "ParserError" := ⟨rfl, rfl⟩

/-- C9: loading from a non-existent path yields the fallback Dataset,
which is non-empty and contains at least one distinct site, at least one
Success record and at least one Failure record. -/
theorem load_missing_file_fallback_guarantee :
    loadDataset ReadResult.fileNotFoundError = Except.ok fallbackDataset ∧
    fallbackDataset ≠ [] ∧
    1 ≤ ((fallbackDataset.map (fun r => r.launchSite)).dedup).length ∧
    (∃ r ∈ fallbackDataset, r.cls = 1) ∧
    (∃ r ∈ fallbackDataset, r.cls = 0) := by
  refine ⟨rfl, by decide, by decide, ?_, ?_⟩
  · exact ⟨⟨"VAFB SLC-4E", 600, 1, "v1.1"⟩, by decide, rfl⟩
  · exact ⟨⟨"CCAFS LC-40", 500, 0, "v1.0"⟩, by decide, rfl⟩

/-- C3: for every dataset, the counts returned by the ALL branch of the
success distribution sum to the number of Success records in the whole
dataset. -/
theorem successDistributionAll_partition (df : List LaunchRecord) :
    ((successDistributionAll df).map (fun p => p.2)).sum =
      (df.filter (fun r => r.cls == 1)).length := by
  have h := List.sum_map_count_dedup_eq_length
    ((df.filter (fun r => r.cls == 1)).map (fun r => r.launchSite))
  simpa [successDistributionAll, List.map_map, Function.comp] using h

/-- C3 witness: the counts of the ALL distribution on the scenario
dataset sum to its number of Success records. -/
theorem successDistributionAll_partition_witness :
    ((successDistributionAll scenarioDataset).map (fun p => p.2)).sum =
      (scenarioDataset.filter (fun r => r.cls == 1)).length :=
  successDistributionAll_partition scenarioDataset

/-- C6: a site appears as a key of the ALL success distribution exactly
when the dataset has at least one Success record at that site; a site
with zero successes is absent, never present with count 0. -/
theorem successDistributionAll_keys (df : List LaunchRecord) (s : String) :
    s ∈ (successDistributionAll df).map (fun p => p.1) ↔
      ∃ r ∈ df, r.cls = 1 ∧ r.launchSite = s := by
  simp only [successDistributionAll, List.map_map, Function.comp,
    List.mem_map, List.mem_dedup, List.mem_filter, beq_iff_eq]
  constructor
  · rintro ⟨t, ⟨r, ⟨hr, hcls⟩, hsite⟩, rfl⟩
    exact ⟨r, hr, hcls, hsite⟩
  · rintro ⟨r, hr, hcls, hsite⟩
    exact ⟨s, ⟨r, ⟨hr, hcls⟩, hsite⟩, rfl⟩

/-- C6 witness: CCAFS is a key of the scenario ALL distribution exactly
when the scenario dataset has a Success record at CCAFS. -/
theorem successDistributionAll_keys_witness :
    "CCAFS" ∈ (successDistributionAll scenarioDataset).map (fun p => p.1) ↔
      ∃ r ∈ scenarioDataset, r.cls = 1 ∧ r.launchSite = "CCAFS" :=
  successDistributionAll_keys scenarioDataset "CCAFS"

/-- C7: the filtered-records query returns exactly the records matching
the payload-range mask and the site filter, as a subsequence of the
dataset in its original order. -/
theorem computeFilteredRecords_stable (df : List LaunchRecord) (s : String)
    (low high : ℚ) :
    computeFilteredRecords df s low high =
      df.filter (fun r => inPayloadRange low high r &&
        (s == "ALL" || r.launchSite == s)) ∧
    (computeFilteredRecords df s low high).Sublist df := by
  constructor
  · simp only [computeFilteredRecords]
    by_cases hs : (s == "ALL") = true
    · simp only [hs, if_true]
      refine List.filter_congr fun r _ => ?_
      simp [hs]
    · have hs' : (s == "ALL") = false := by
        simpa [Bool.not_eq_true] using hs
      simp only [hs', Bool.false_eq_true, if_false, List.filter_filter]
      refine List.filter_congr fun r _ => ?_
      simp [hs', Bool.and_comm]
  · simp only [computeFilteredRecords]
    by_cases hs : (s == "ALL") = true
    · simp only [hs, if_true]
      exact List.filter_sublist df
    · have hs' : (s == "ALL") = false := by
        simpa [Bool.not_eq_true] using hs
      simp only [hs', Bool.false_eq_true, if_false]
      exact (List.filter_sublist _).trans (List.filter_sublist df)

/-- C7 witness: the scenario query for CCAFS with range 0 to 10000 is a
filter of the scenario dataset and a subsequence of it. -/
theorem computeFilteredRecords_stable_witness :
    computeFilteredRecords scenarioDataset "CCAFS" 0 10000 =
      scenarioDataset.filter (fun r => inPayloadRange 0 10000 r &&
        ("CCAFS" == "ALL" || r.launchSite == "CCAFS")) ∧
    (computeFilteredRecords scenarioDataset "CCAFS" 0 10000).Sublist
      scenarioDataset :=
  computeFilteredRecords_stable scenarioDataset "CCAFS" 0 10000

/-- C5: widening the payload range (lower low bound, higher high bound)
never decreases the number of records returned by the filtered-records
query, for any dataset and any site filter. -/
theorem computeFilteredRecords_range_mono (df : List LaunchRecord)
    (s : String) (low1 high1 low2 high2 : ℚ)
    (hlow : low2 ≤ low1) (hhigh : high1 ≤ high2) :
    (computeFilteredRecords df s low1 high1).length ≤
      (computeFilteredRecords df s low2 high2).length := by
  have point : ∀ r : LaunchRecord, inPayloadRange low1 high1 r = true →
      inPayloadRange low2 high2 r = true := by
    intro r h
    simp only [inPayloadRange, Bool.and_eq_true, decide_eq_true_eq] at h ⊢
    exact ⟨le_trans hlow h.1, le_trans h.2 hhigh⟩
  simp only [computeFilteredRecords]
  by_cases hs : (s == "ALL") = true
  · simp only [hs, if_true, ← List.countP_eq_length_filter]
    exact List.countP_mono_left fun r _ h => point r h
  · have hs' : (s == "ALL") = false := by
      simpa [Bool.not_eq_true] using hs
    simp only [hs', Bool.false_eq_true, if_false, List.filter_filter,
      ← List.countP_eq_length_filter]
    refine List.countP_mono_left fun r _ h => ?_
    simp only [Bool.and_eq_true] at h ⊢
    exact ⟨h.1, point r h.2⟩

/-- C5 witness: on the scenario dataset with site ALL, widening the
range 0 to 600 into 0 to 10000 does not decrease the result size. -/
theorem computeFilteredRecords_range_mono_witness :
    (computeFilteredRecords scenarioDataset "ALL" 0 600).length ≤
      (computeFilteredRecords scenarioDataset "ALL" 0 10000).length :=
  computeFilteredRecords_range_mono scenarioDataset "ALL" 0 600 0 10000
    (by decide) (by decide)

/-- C8: degenerate filter parameters yield well-defined empty results: a
payload range with low above high yields an empty filtered-records
result, and a selected site (other than the ALL sentinel) appearing in
no record yields an empty success-distribution mapping. -/
theorem queries_degenerate_inputs (df : List LaunchRecord) (s : String)
    (low high : ℚ) :
    (high < low → computeFilteredRecords df s low high = []) ∧
    (s ≠ "ALL" → (∀ r ∈ df, r.launchSite ≠ s) →
      computeSuccessDistribution df s = PieResult.byOutcome []) := by
  constructor
  · intro hlt
    have hnil : df.filter (inPayloadRange low high) = [] := by
      rw [List.filter_eq_nil_iff]
      intro r _
      simp only [inPayloadRange, Bool.and_eq_true, decide_eq_true_eq, not_and]
      intro h1 h2
      exact absurd (le_trans h1 h2) (not_le.2 hlt)
    simp [computeFilteredRecords, hnil]
  · intro hS hsite
    have hfil : df.filter (fun r => r.launchSite == s) = [] := by
      rw [List.filter_eq_nil_iff]
      intro r hr
      simp [hsite r hr]
    have hS' : (s == "ALL") = false := by simp [hS]
    simp [computeSuccessDistribution, successDistributionSite, hS', hfil]

/-- C8 witness: on the scenario dataset, the range 600 to 0 yields no
filtered records, and the unknown site Nowhere yields an empty
distribution mapping. -/
theorem queries_degenerate_inputs_witness :
    computeFilteredRecords scenarioDataset "ALL" 600 0 = [] ∧
    computeSuccessDistribution scenarioDataset "Nowhere" =
      PieResult.byOutcome [] :=
  ⟨(queries_degenerate_inputs scenarioDataset "ALL" 600 0).1 (by decide),
   (queries_degenerate_inputs scenarioDataset "Nowhere" 600 0).2
     (by decide) (by decide)⟩

/-- Looking up a labelled class value in the labelled count list finds
the count of that value when it is present and nothing otherwise,
provided every class value in sight is 0 or 1 (outcomeLabel separates 0
from 1). -/
theorem lookup_outcomeLabel_map (g : ℕ → ℕ) (t : ℕ) (ht : t = 0 ∨ t = 1)
    (l : List ℕ) (hl : ∀ c ∈ l, c = 0 ∨ c = 1) :
    (l.map (fun c => (outcomeLabel c, g c))).lookup (outcomeLabel t) =
      if t ∈ l then some (g t) else none := by
  induction l with
  | nil => simp
  | cons c l ih =>
    have hc : c = 0 ∨ c = 1 := hl c (by simp)
    have ih2 := ih (fun x hx => hl x (by simp [hx]))
    rw [List.map_cons, List.lookup_cons]
    by_cases hct : t = c
    · subst hct
      have hbeq : (outcomeLabel t == outcomeLabel t) = true := by
        rcases ht with ht | ht <;> subst ht <;> rfl
      rw [hbeq]
      simp [List.mem_cons]
    · have hbeq : (outcomeLabel t == outcomeLabel c) = false := by
        rcases ht with ht | ht <;> rcases hc with hc | hc <;> subst ht <;>
          subst hc <;> first | rfl | exact absurd rfl hct
      rw [hbeq]
      simp [ih2, List.mem_cons, hct]

/-- In a list of class values that are all 0 or 1, the occurrences of 1
and the occurrences of 0 together exhaust the list. -/
theorem count_one_add_count_zero (l : List ℕ)
    (hl : ∀ c ∈ l, c = 0 ∨ c = 1) :
    l.count 1 + l.count 0 = l.length := by
  induction l with
  | nil => simp
  | cons c l ih =>
    have hc : c = 0 ∨ c = 1 := hl c (by simp)
    have ih2 := ih (fun x hx => hl x (by simp [hx]))
    rcases hc with hc | hc <;> subst hc <;>
      simp [List.count_cons, ih2] <;> omega

/-- C4: for a specific site S (not the ALL sentinel) and a dataset whose
class column only holds 0 and 1, the query takes the per-outcome branch
and the Success count plus the Failure count (an absent key counting as
zero) equals the number of records at site S. -/
theorem computeSuccessDistribution_site_partition (df : List LaunchRecord)
    (S : String) (hS : S ≠ "ALL")
    (hdf : ∀ r ∈ df, r.cls = 0 ∨ r.cls = 1) :
    computeSuccessDistribution df S =
      PieResult.byOutcome (successDistributionSite df S) ∧
    lookupCount (successDistributionSite df S) (some "Success") +
      lookupCount (successDistributionSite df S) (some "Failure") =
      (df.filter (fun r => r.launchSite == S)).length := by
  have hS' : (S == "ALL") = false := by simp [hS]
  refine ⟨by simp [computeSuccessDistribution, hS'], ?_⟩
  set filtered := df.filter (fun r => r.launchSite == S) with hfiltered
  set cs := filtered.map (fun r => r.cls) with hcs
  have hcl : ∀ c ∈ cs, c = 0 ∨ c = 1 := by
    intro c hc
    rw [hcs] at hc
    obtain ⟨r, hr, rfl⟩ := List.mem_map.1 hc
    exact hdf r (List.mem_filter.1 hr).1
  have hdl : ∀ c ∈ cs.dedup, c = 0 ∨ c = 1 := fun c hc =>
    hcl c (List.mem_dedup.1 hc)
  have hsds : successDistributionSite df S =
      cs.dedup.map (fun c => (outcomeLabel c, cs.count c)) := rfl
  have key : ∀ t : ℕ, t = 0 ∨ t = 1 →
      lookupCount (successDistributionSite df S) (outcomeLabel t) =
        cs.count t := by
    intro t ht
    simp only [lookupCount, hsds,
      lookup_outcomeLabel_map (fun c => cs.count c) t ht cs.dedup hdl]
    by_cases hmem : t ∈ cs.dedup
    · simp [hmem]
    · have hout : t ∉ cs := fun h => hmem (List.mem_dedup.2 h)
      simp [hmem, List.count_eq_zero.2 hout]
  have h1 : lookupCount (successDistributionSite df S) (some "Success") =
      cs.count 1 := key 1 (Or.inr rfl)
  have h0 : lookupCount (successDistributionSite df S) (some "Failure") =
      cs.count 0 := key 0 (Or.inl rfl)
  rw [h1, h0, count_one_add_count_zero cs hcl, hcs, List.length_map]

/-- C4 witness: on the scenario dataset at site CCAFS, the Success and
Failure counts add up to the number of CCAFS records. -/
theorem computeSuccessDistribution_site_partition_witness :
    computeSuccessDistribution scenarioDataset "CCAFS" =
      PieResult.byOutcome (successDistributionSite scenarioDataset "CCAFS") ∧
    lookupCount (successDistributionSite scenarioDataset "CCAFS")
        (some "Success") +
      lookupCount (successDistributionSite scenarioDataset "CCAFS")
        (some "Failure") =
      (scenarioDataset.filter (fun r => r.launchSite == "CCAFS")).length :=
  computeSuccessDistribution_site_partition scenarioDataset "CCAFS"
    (by decide) (by decide)

/-- C10: every count appearing in the success-distribution result, in
either branch, is strictly positive; a zero count never occurs as an
explicit entry. -/
theorem successDistribution_counts_pos (df : List LaunchRecord)
    (s : String) (n : ℕ)
    (hn : n ∈ (computeSuccessDistribution df s).countValues) : 0 < n := by
  simp only [computeSuccessDistribution] at hn
  by_cases hs : (s == "ALL") = true
  · simp only [hs, if_true, PieResult.countValues, successDistributionAll,
      List.map_map, List.mem_map, Function.comp] at hn
    obtain ⟨t, ht, rfl⟩ := hn
    exact List.count_pos_iff.2 (List.mem_dedup.1 ht)
  · have hs' : (s == "ALL") = false := by
      simpa [Bool.not_eq_true] using hs
    simp only [hs', Bool.false_eq_true, if_false, PieResult.countValues,
      successDistributionSite, List.map_map, List.mem_map,
      Function.comp] at hn
    obtain ⟨t, ht, rfl⟩ := hn
    exact List.count_pos_iff.2 (List.mem_dedup.1 ht)

/-- C10 witness: the count 1 occurs in the ALL distribution of the
scenario dataset and is strictly positive. -/
theorem successDistribution_counts_pos_witness :
    1 ∈ (computeSuccessDistribution scenarioDataset "ALL").countValues ∧
      0 < 1 :=
  ⟨by decide,
   successDistribution_counts_pos scenarioDataset "ALL" 1 (by decide)⟩
